import Mathlib

/-!
Verification of the hierarchical navigation and caching engine of the gcvm
frontend (src/frontend/src/components/Sidebar.tsx, src/frontend/src/utils/groupTree.ts,
and the windowed list renderer VirtualList).  The TypeScript code is shallowly
embedded: each function below is a direct translation of the corresponding
source function, with JavaScript truthiness, `??`/`||` operators and property
access on parsed JSON modelled explicitly.
-/

namespace GCVM

/-! ## A model of parsed JSON values and the JavaScript coercions the cache uses -/

/-- A JSON value as produced by JSON.parse.  Numbers are modelled as integers
(the cache only ever stores integer timestamps).  An object holds its final
property bindings (duplicate keys are already resolved by the parser). -/
inductive Json where
  | null
  | bool (b : Bool)
  | num (n : Int)
  | str (s : String)
  | arr (xs : List Json)
  | obj (fields : List (String × Json))

/-- JavaScript truthiness of a value: null, false, 0 and the empty string are
falsy; arrays and objects are always truthy. -/
def Json.truthy : Json → Bool
  | .null => false
  | .bool b => b
  | .num n => n != 0
  | .str s => s != ""
  | .arr _ => true
  | .obj _ => true

/-- Property lookup in an object's field list. -/
def lookupField : List (String × Json) → String → Option Json
  | [], _ => none
  | (k, v) :: rest, key => if k = key then some v else lookupField rest key

/-- JavaScript property access `value.key`: only objects have data properties;
on every other value the access yields undefined (`none`). -/
def Json.get : Json → String → Option Json
  | .obj fields, key => lookupField fields key
  | _, _ => none

/-- JavaScript `String(value)` coercion.  The array case approximates
Array.prototype.toString (elements joined by commas; JS renders a null element
as the empty string, here it renders as "null").  No code path settled below
ever stringifies an array, so the approximation is unreachable in the theorems. -/
def jsToString : Json → String
  | .null => "null"
  | .bool b => cond b "true" "false"
  | .num n => toString n
  | .str s => s
  | .obj _ => "[object Object]"
  | .arr xs => String.intercalate "," (xs.attach.map (fun x => jsToString x.1))
decreasing_by
  have hx := List.sizeOf_lt_of_mem x.2
  simp only [Json.arr.sizeOf_spec]
  omega

/-- JavaScript `Number(value)` coercion for the values the cache can meet.
Parsing of numeric strings and NaN are outside the model: every string, array
or object coerces to 0 here (JS would yield a parse result or NaN); no theorem
below feeds a string, array or object into a Number coercion. -/
def jsToNumber : Json → Int
  | .null => 0
  | .bool b => cond b 1 0
  | .num n => n
  | .str _ => 0
  | .arr _ => 0
  | .obj _ => 0

/-- JavaScript `a || b` where `a` is a possibly-undefined property
(undefined is falsy). -/
def jsOrU (a : Option Json) (b : Json) : Json :=
  match a with
  | some v => if v.truthy then v else b
  | none => b

/-! ## PersistentTreeCache: loadGroupTreeCache / saveGroupTreeCache
(src/frontend/src/utils/groupTree.ts) -/

/-- The TTL of the session tree cache, in milliseconds
(GROUP_CACHE_TTL_MS = 60_000 in groupTree.ts). -/
def GROUP_CACHE_TTL_MS : Int := 60000

/-- The GroupTreeCacheRecord of groupTree.ts.  The tree is held as the raw
parsed JSON array: the source never inspects it (it only checks
Array.isArray and casts), so deep equality of trees is equality of the
underlying JSON. -/
structure GroupTreeCacheRecord where
  tree : List Json
  hash : String
  lastModified : String
  lastModifiedHttp : Option String
  storedAt : Int

/-- What sessionStorage holds under the cache key: nothing, a string that
JSON.parse rejects, or a string that parses to a JSON value.  Storing the
parsed value rather than the string is faithful because JSON.stringify
followed by JSON.parse is the identity at the value level. -/
inductive StoredValue where
  | absent
  | garbage
  | json (value : Json)

/-- The result shape of loadGroupTreeCache. -/
structure LoadedCache where
  record : Option GroupTreeCacheRecord
  stale : Bool

/-- Whether the `tree` property of the parsed payload is an array
(the `Array.isArray(data.tree)` check). -/
def isTreeArray (data : Json) : Bool :=
  match data.get "tree" with
  | some (.arr _) => true
  | _ => false

/-- The `tree` property of the payload read back as an array
(the `data.tree as GroupTreeNode[]` cast; only evaluated after isTreeArray). -/
def treeOf (data : Json) : List Json :=
  match data.get "tree" with
  | some (.arr xs) => xs
  | _ => []

/-- loadGroupTreeCache of groupTree.ts, with the ambient clock Date.now()
passed in as `now`.  Absent storage, unparsable JSON, a falsy parsed value or
a non-array tree yield a bare stale result (no record); otherwise the record
fields are coerced exactly as the source does: String(data.hash || ""),
String(data.lastModified || ""), data.lastModifiedHttp ? String(..) : undefined,
Number(data.storedAt || Date.now()), and staleness is
Date.now() - storedAt > GROUP_CACHE_TTL_MS. -/
def loadGroupTreeCache (storage : StoredValue) (now : Int) : LoadedCache :=
  match storage with
  | .absent => { record := none, stale := true }
  | .garbage => { record := none, stale := true }
  | .json data =>
    if !data.truthy || !isTreeArray data then { record := none, stale := true }
    else
      let record : GroupTreeCacheRecord :=
        { tree := treeOf data
          hash := jsToString (jsOrU (data.get "hash") (.str ""))
          lastModified := jsToString (jsOrU (data.get "lastModified") (.str ""))
          lastModifiedHttp :=
            match data.get "lastModifiedHttp" with
            | some v => if v.truthy then some (jsToString v) else none
            | none => none
          storedAt := jsToNumber (jsOrU (data.get "storedAt") (.num now)) }
      { record := some record, stale := decide (now - record.storedAt > GROUP_CACHE_TTL_MS) }

/-- The JSON payload saveGroupTreeCache serializes: the five record fields in
insertion order, with an undefined lastModifiedHttp omitted by JSON.stringify. -/
def encodeCacheRecord (r : GroupTreeCacheRecord) : Json :=
  .obj ([("tree", .arr r.tree), ("hash", .str r.hash), ("lastModified", .str r.lastModified)]
    ++ (match r.lastModifiedHttp with
        | some s => [("lastModifiedHttp", Json.str s)]
        | none => [])
    ++ [("storedAt", .num r.storedAt)])

/-- saveGroupTreeCache of groupTree.ts: sessionStorage ends up holding the
serialized record (write errors are swallowed by the source; the success path
is modelled). -/
def saveGroupTreeCache (r : GroupTreeCacheRecord) : StoredValue :=
  .json (encodeCacheRecord r)

/-- A well-formed cache record: the stored clock value is a real (positive)
timestamp and the optional HTTP Last-Modified marker, when present, is a
non-empty header value.  (A zero timestamp or an empty-string header are falsy
in JavaScript and are deliberately excluded from well-formedness: the source
coerces them through `||` / ternary truthiness.) -/
def WellFormedCacheRecord (r : GroupTreeCacheRecord) : Prop :=
  0 < r.storedAt ∧ r.lastModifiedHttp ≠ some ""

/-! ## WindowedListRenderer: VirtualList (src/unnamed/part_004)

The list is rendered at a fixed row height R inside a scrolling ancestor.
`recompute` reads scroll = max(scrollTop - offset, 0) and the viewport height
and derives the materialized range; the render emits a top spacer, the slice,
and a bottom spacer.  Items are modelled as an arbitrary list of naturals and
the scroll offset S is the already-clamped scroll position relative to the
list. -/

/-- The `{ start, end }` range state of VirtualList (`end` is a Lean keyword,
rendered here as `stop`). -/
structure VirtualRange where
  start : Nat
  stop : Nat
  deriving Repr, DecidableEq

/-- Ceiling division on naturals, Math.ceil(a / b) for nonnegative a and b > 0. -/
def natCeilDiv (a b : Nat) : Nat := (a + b - 1) / b

/-- The `recompute` window of VirtualList:
start = Math.max(0, Math.floor(scroll / rowHeight) - overscan) and
end = Math.min(items.length, Math.ceil((scroll + viewport) / rowHeight) + overscan).
Natural subtraction is the Math.max(0, _) clamp of the source. -/
def computeRange (len rowHeight viewport scroll overscan : Nat) : VirtualRange :=
  { start := scroll / rowHeight - overscan
    stop := min len (natCeilDiv (scroll + viewport) rowHeight + overscan) }

/-- What VirtualList renders: for an empty item list only the empty-state
placeholder slot, otherwise a top spacer, the materialized slice, and a bottom
spacer. -/
inductive VirtualRender (α : Type) where
  | empty
  | window (topPad : Nat) (rows : List α) (bottomPad : Nat)
  deriving Repr, DecidableEq

/-- The VirtualList render function: empty list short-circuits to the
placeholder; otherwise topPad = start * rowHeight,
bottomPad = Math.max(0, (items.length - end) * rowHeight) (natural subtraction
performs the clamp), and the slice is items.slice(start, end). -/
def renderVirtualList (items : List Nat) (rowHeight viewport scroll overscan : Nat) :
    VirtualRender Nat :=
  if items.length = 0 then .empty
  else
    let r := computeRange items.length rowHeight viewport scroll overscan
    .window (r.start * rowHeight)
      ((items.drop r.start).take (r.stop - r.start))
      ((items.length - r.stop) * rowHeight)

/-! ## PagedLevelLoader: loadGroupList (Sidebar.tsx lines 182-258)

One level of the group hierarchy, keyed by parent ("root" or a group id).
Items are modelled by their ids.  The fetch outcome (the awaited
api.groupsRootPage / api.groupChildrenPage call) is passed in explicitly. -/

/-- Sidebar.tsx pagination constants. -/
def ROOT_INITIAL_LIMIT : Nat := 6
/-- Initial page size for child levels. -/
def CHILD_INITIAL_LIMIT : Nat := 4
/-- Follow-up page size for the root level. -/
def ROOT_PAGE_LIMIT : Nat := 24
/-- Follow-up page size for child levels. -/
def CHILD_PAGE_LIMIT : Nat := 12

/-- The GroupListState of Sidebar.tsx. -/
structure GroupListState where
  items : List Nat
  cursor : Option String
  total : Nat
  loading : Bool
  error : Option String
  initialLimit : Nat
  displayCount : Nat
  deriving Repr, DecidableEq

/-- The options argument of loadGroupList. -/
structure LoadOptions where
  reset : Bool
  initialLimit : Option Nat
  deriving Repr, DecidableEq

/-- A successful GroupPageResponse: the fields loadGroupList consumes.
total is optional because the merge defends with `response.total ?? items.length`. -/
structure GroupPageResponse where
  items : List Nat
  next_cursor : Option String
  total : Option Nat
  deriving Repr, DecidableEq

/-- The awaited page fetch either resolves with a response or rejects with an
error message. -/
inductive LoadOutcome where
  | success (resp : GroupPageResponse)
  | failure (msg : String)
  deriving Repr, DecidableEq

/-- JavaScript truthiness of a string-or-nullish value (the empty string is
falsy).  Used for `cursor ? ... : ...` in loadGroupList and for
`if (params.cursor)` in api.ts, which only sends a truthy cursor. -/
def jsStrTruthy : Option String → Bool
  | none => false
  | some s => s != ""

/-- The in-flight guard of loadGroupList: `if (prev?.loading && !options.reset) return;`.
True when the call proceeds to fetch. -/
def loadAccepted (prev : Option GroupListState) (opts : LoadOptions) : Bool :=
  match prev with
  | some p => !(p.loading && !opts.reset)
  | none => true

/-- options.initialLimit ?? prev?.initialLimit ?? (root or child default). -/
def effectiveInitialLimit (isRoot : Bool) (prev : Option GroupListState)
    (opts : LoadOptions) : Nat :=
  match opts.initialLimit with
  | some n => n
  | none =>
    match prev with
    | some p => p.initialLimit
    | none => if isRoot then ROOT_INITIAL_LIMIT else CHILD_INITIAL_LIMIT

/-- The continuation cursor of the call: null on reset, else prev?.cursor ?? null. -/
def requestCursor (prev : Option GroupListState) (opts : LoadOptions) : Option String :=
  if opts.reset then none
  else
    match prev with
    | some p => p.cursor
    | none => none

/-- The page size: the follow-up limit when a truthy cursor is present, the
initial limit otherwise. -/
def requestPageSize (isRoot : Bool) (prev : Option GroupListState)
    (opts : LoadOptions) : Nat :=
  if jsStrTruthy (requestCursor prev opts) then
    if isRoot then ROOT_PAGE_LIMIT else CHILD_PAGE_LIMIT
  else effectiveInitialLimit isRoot prev opts

/-- The state written for the key before the fetch resolves (the first
setGroupLists call): previous items/cursor/total kept (the source's
`cursor ? prev?.items ?? [] : prev?.items ?? []` has identical branches),
loading true, error cleared, displayCount = prev?.displayCount ??
min(initialLimit, prev?.items?.length ?? 0). -/
def loadingState (isRoot : Bool) (prev : Option GroupListState)
    (opts : LoadOptions) : GroupListState :=
  let il := effectiveInitialLimit isRoot prev opts
  { items := match prev with | some p => p.items | none => []
    cursor := match prev with | some p => p.cursor | none => none
    total := match prev with | some p => p.total | none => 0
    loading := true
    error := none
    initialLimit := il
    displayCount :=
      match prev with
      | some p => p.displayCount
      | none => min il 0 }

/-- The state written on a successful response (the second setGroupLists call):
previousItems = (cursor && prev) ? prev.items : [];
items = (cursor && previousItems.length) ? previousItems ++ response.items : response.items;
displayCount = (cursor && prev) ? min(prev.displayCount + response.items.length, items.length)
                                : min(items.length, initialLimit);
cursor := response.next_cursor ?? null; total := response.total ?? items.length. -/
def successState (isRoot : Bool) (prev : Option GroupListState)
    (opts : LoadOptions) (resp : GroupPageResponse) : GroupListState :=
  let il := effectiveInitialLimit isRoot prev opts
  let cursor := requestCursor prev opts
  let previousItems : List Nat :=
    match prev with
    | some p => if jsStrTruthy cursor then p.items else []
    | none => []
  let items :=
    if jsStrTruthy cursor && (previousItems.length != 0) then previousItems ++ resp.items
    else resp.items
  let displayCount :=
    match prev with
    | some p =>
      if jsStrTruthy cursor then min (p.displayCount + resp.items.length) items.length
      else min items.length il
    | none => min items.length il
  { items := items
    cursor := resp.next_cursor
    total := resp.total.getD items.length
    loading := false
    error := none
    initialLimit := il
    displayCount := displayCount }

/-- The fallback error message `t('sidebar.error')`. -/
def SIDEBAR_ERROR_FALLBACK : String := "sidebar.error"

/-- The state written in the catch branch: items/cursor kept from the captured
prev (empty/null when there was none), total = prev?.total ?? prev?.items?.length ?? 0,
loading false, error = err?.message || t('sidebar.error'),
displayCount = prev?.displayCount ?? min(initialLimit, prev?.items?.length ?? 0). -/
def failureState (isRoot : Bool) (prev : Option GroupListState)
    (opts : LoadOptions) (msg : String) : GroupListState :=
  let il := effectiveInitialLimit isRoot prev opts
  { items := match prev with | some p => p.items | none => []
    cursor := match prev with | some p => p.cursor | none => none
    total := match prev with | some p => p.total | none => 0
    loading := false
    error := some (if msg = "" then SIDEBAR_ERROR_FALLBACK else msg)
    initialLimit := il
    displayCount :=
      match prev with
      | some p => p.displayCount
      | none => min il 0 }

/-- One full loadGroupList call for a level key: the list of states the call
writes for that key, in order (the loading state, then the final state), and
whether a fetch was issued.  When the in-flight guard skips the call nothing
is written and no fetch happens. -/
def loadGroupList (isRoot : Bool) (prev : Option GroupListState)
    (opts : LoadOptions) (outcome : LoadOutcome) : List GroupListState × Bool :=
  if loadAccepted prev opts then
    let final :=
      match outcome with
      | .success resp => successState isRoot prev opts resp
      | .failure msg => failureState isRoot prev opts msg
    ([loadingState isRoot prev opts, final], true)
  else ([], false)

/-! ## The show-more / collapse handlers for group levels
(Sidebar.tsx lines 630-670).  handleShowMoreGroups delegates to loadGroupList
when the key has no state or still has a cursor; only its reveal branch
(displayCount < items.length, no cursor left) mutates state directly.
handleCollapseGroups shrinks displayCount back to the initial limit. -/

/-- The reveal branch of handleShowMoreGroups: when displayCount <
items.length, displayCount jumps to items.length; otherwise nothing happens. -/
def applyShowMoreReveal (s : GroupListState) : GroupListState :=
  if s.displayCount < s.items.length then { s with displayCount := s.items.length } else s

/-- handleCollapseGroups: displayCount := min(items.length, initialLimit). -/
def applyCollapse (s : GroupListState) : GroupListState :=
  { s with displayCount := min s.items.length s.initialLimit }

/-- An operation that mutates one level's state: a loadGroupList call (page
load with success or failure — this also covers the delegating branches of
handleShowMoreGroups and the reset loads of revalidation), the show-more
reveal, or the collapse. -/
inductive LevelOp where
  | load (isRoot : Bool) (opts : LoadOptions) (outcome : LoadOutcome)
  | showMoreReveal
  | collapse

/-- The state of the level after an operation (a load that the in-flight guard
skips leaves the state untouched; reveal and collapse are no-ops while the key
has no state). -/
def stepOp (op : LevelOp) (s : Option GroupListState) : Option GroupListState :=
  match op with
  | .load isRoot opts outcome =>
    match (loadGroupList isRoot s opts outcome).1.getLast? with
    | some st => some st
    | none => s
  | .showMoreReveal => s.map applyShowMoreReveal
  | .collapse => s.map applyCollapse

/-- Every state an operation writes for the key, in order. -/
def opStates (op : LevelOp) (s : Option GroupListState) : List GroupListState :=
  match op with
  | .load isRoot opts outcome => (loadGroupList isRoot s opts outcome).1
  | .showMoreReveal => (s.map applyShowMoreReveal).toList
  | .collapse => (s.map applyCollapse).toList

/-- Every state written for a level key over a sequence of operations. -/
def traceStates : List LevelOp → Option GroupListState → List GroupListState
  | [], _ => []
  | op :: rest, s => opStates op s ++ traceStates rest (stepOp op s)

/-- The displayCount invariant of a level state. -/
def DisplayCountInv (s : GroupListState) : Prop :=
  s.displayCount ≤ s.items.length

/-! ## SearchCoordinator: the debounced search effect (Sidebar.tsx lines 347-416)

On every change of the search text the effect re-runs: its cleanup clears the
pending debounce timer (window.clearTimeout — a no-op for a timer that has
already fired), and a non-empty trimmed text schedules a new 250ms timer.
When the timer fires, its callback creates a per-request closure flag
`let active = true` and launches the group-search and project-search fetches,
each guarded by `if (!active) return;` before applying results.  The callback
ends with `return () => { active = false; };` — but that deactivation closure
is returned to window.setTimeout, which discards the callback's return value,
so no event in this model (and none in the source) ever sets a request's
active flag back to false.  Responses carry the payload list the server
returned; the scoping/flattening of the group tree transforms content only and
is orthogonal to which response gets applied, so the applied payload stands in
for the flattened result. -/

/-- A fired search request: its id, the query it was issued for, and its
`active` closure flag (captured true at fire time). -/
structure SearchRequest where
  id : Nat
  query : String
  active : Bool
  deriving Repr, DecidableEq

/-- The search-related component state. -/
structure SearchState where
  text : String
  pendingQuery : Option String
  nextId : Nat
  inflight : List SearchRequest
  searchResults : List Nat
  searchLoading : Bool
  searchProjectResults : List Nat
  searchProjectLoading : Bool
  searchProjectError : Option String
  deriving Repr, DecidableEq

/-- The initial search state (empty box, nothing scheduled, nothing displayed). -/
def initialSearchState : SearchState :=
  { text := ""
    pendingQuery := none
    nextId := 0
    inflight := []
    searchResults := []
    searchLoading := false
    searchProjectResults := []
    searchProjectLoading := false
    searchProjectError := none }

/-- Events of the search coordinator: a text edit (effect re-run), the pending
debounce timer firing, and the four ways an in-flight request can resolve. -/
inductive SearchEvent where
  | input (text : String)
  | timerFire
  | groupResponse (id : Nat) (tree : List Nat)
  | groupFailure (id : Nat)
  | projectResponse (id : Nat) (projects : List Nat)
  | projectFailure (id : Nat) (msg : String)

/-- JavaScript String.prototype.trim: leading and trailing whitespace removed
(implemented over the character list; the exact whitespace set differs
marginally between JS and Char.isWhitespace, which no claim depends on). -/
def jsTrim (s : String) : String :=
  String.mk (((s.data.dropWhile Char.isWhitespace).reverse.dropWhile Char.isWhitespace).reverse)

/-- The active flag of a fired request (false for an unknown id). -/
def activeFlag (st : SearchState) (id : Nat) : Bool :=
  match st.inflight.find? (fun r => r.id = id) with
  | some r => r.active
  | none => false

/-- The number of project results the search panel displays at most
(`projects.slice(0, 50)` in the project-search branch). -/
def PROJECT_SEARCH_LIMIT : Nat := 50

/-- The fallback project-search error message `t('sidebar.projects.search_error')`. -/
def PROJECT_SEARCH_ERROR_FALLBACK : String := "sidebar.projects.search_error"

/-- One step of the search coordinator.  input: the effect cleanup drops the
pending timer, then the empty trimmed text synchronously clears all search
state while a non-empty one sets the loading flags and schedules a new timer.
timerFire: the scheduled query becomes a request with active = true.
Responses apply if and only if the request's flag is still true (it always is:
nothing clears it) — the project response is truncated to its first 50 items. -/
def stepSearch (ev : SearchEvent) (st : SearchState) : SearchState :=
  match ev with
  | .input t =>
    let cleaned := { st with pendingQuery := none }
    let trimmed := jsTrim t
    if trimmed = "" then
      { cleaned with
          text := t
          searchResults := []
          searchProjectResults := []
          searchLoading := false
          searchProjectLoading := false
          searchProjectError := none }
    else
      { cleaned with
          text := t
          searchLoading := true
          searchProjectLoading := true
          searchProjectError := none
          pendingQuery := some trimmed }
  | .timerFire =>
    match st.pendingQuery with
    | none => st
    | some q =>
      { st with
          pendingQuery := none
          inflight := st.inflight ++ [{ id := st.nextId, query := q, active := true }]
          nextId := st.nextId + 1 }
  | .groupResponse id tree =>
    if activeFlag st id then
      { st with searchResults := tree, searchLoading := false }
    else st
  | .groupFailure id =>
    if activeFlag st id then
      { st with searchResults := [], searchLoading := false }
    else st
  | .projectResponse id projects =>
    if activeFlag st id then
      { st with
          searchProjectResults := projects.take PROJECT_SEARCH_LIMIT
          searchProjectLoading := false }
    else st
  | .projectFailure id msg =>
    if activeFlag st id then
      { st with
          searchProjectResults := []
          searchProjectError := some (if msg = "" then PROJECT_SEARCH_ERROR_FALLBACK else msg)
          searchProjectLoading := false }
    else st

/-- A whole event trace, from the initial state. -/
def runSearch (events : List SearchEvent) : SearchState :=
  events.foldl (fun st ev => stepSearch ev st) initialSearchState

/-! ## RevalidationLoop: the 60s interval effect (Sidebar.tsx lines 309-345) -/

/-- The root hash / Last-Modified markers kept in rootMetaRef. -/
structure RevalMeta where
  hash : Option String
  lastModifiedHttp : Option String
  deriving Repr, DecidableEq

/-- The conditional api.groups response the tick awaits. -/
structure RevalResponse where
  changed : Bool
  hash : Option String
  last_modified_http : Option String
  deriving Repr, DecidableEq

/-- The component state the revalidation tick reads and mutates.  groupLists
is the per-key level map; groupPath holds the ids of the current breadcrumb
entries. -/
structure SidebarRevalState where
  groupLists : List (String × GroupListState)
  groupPath : List Nat
  meta : RevalMeta
  inFlight : Bool
  selectedGroupId : Option Nat
  deriving Repr, DecidableEq

/-- A network request the tick can issue. -/
inductive FetchReq where
  | conditionalGroups (hash : Option String) (since : Option String)
  | loadLevel (parentId : Option Nat) (reset : Bool)
  | fetchGroupPath (groupId : Nat)
  deriving Repr, DecidableEq

/-- One revalidation tick, with the awaited conditional response passed in.
Skipped entirely when a tick is already in flight or when no marker exists
(`if (!meta.hash && !meta.lastModifiedHttp) return;` — JavaScript truthiness,
so an empty-string marker counts as absent).  On changed: the markers are
refreshed (`response.hash ?? meta.hash`), the whole level map is dropped, and
the root level, every path level, and (for a truthy selection) the branch path
are re-fetched; those reload responses are handled by loadGroupList /
the path setter and are outside this function.  On changed: false nothing else
happens.  Returns the new synchronous state and the requests issued. -/
def revalidateTick (st : SidebarRevalState) (resp : RevalResponse) :
    SidebarRevalState × List FetchReq :=
  if st.inFlight then (st, [])
  else if !jsStrTruthy st.meta.hash && !jsStrTruthy st.meta.lastModifiedHttp then (st, [])
  else
    let checkReq := FetchReq.conditionalGroups st.meta.hash st.meta.lastModifiedHttp
    if resp.changed then
      let newMeta : RevalMeta :=
        { hash := match resp.hash with | some h => some h | none => st.meta.hash
          lastModifiedHttp :=
            match resp.last_modified_http with
            | some l => some l
            | none => st.meta.lastModifiedHttp }
      let pathReloads := st.groupPath.map (fun gid => FetchReq.loadLevel (some gid) true)
      let pathRefetch :=
        match st.selectedGroupId with
        | some gid => if gid ≠ 0 then [FetchReq.fetchGroupPath gid] else []
        | none => []
      ({ st with meta := newMeta, groupLists := [] },
        checkReq :: FetchReq.loadLevel none true :: pathReloads ++ pathRefetch)
    else (st, [checkReq])

/-! ## ProjectPageCache: handleCollapseProjects / handleLoadMoreProjects
(Sidebar.tsx lines 701-745) -/

/-- The page size of the paged project tier (PROJECTS_PAGE_SIZE = 3). -/
def PROJECTS_PAGE_SIZE : Nat := 3

/-- The ProjectsSnapshot of Sidebar.tsx, projects modelled by their ids.
nextPage/firstPageNext hold a page number or are nullish (null and undefined
behave identically in every use: `??` and Boolean coercion). -/
structure ProjectsSnapshot where
  items : List Nat
  loading : Bool
  error : Option String
  searchKey : String
  fetchedAt : Int
  nextPage : Option Int
  hasMore : Bool
  firstPageItems : Option (List Nat)
  firstPageNext : Option Int
  allItems : Option (List Nat)
  deriving Repr, DecidableEq

/-- A project fetch the handlers can trigger. -/
inductive ProjReq where
  | fetchPage (page : Int)
  | fetchAll
  deriving Repr, DecidableEq

/-- JavaScript Boolean() of a number-or-nullish value (0 is falsy). -/
def jsNumTruthy : Option Int → Bool
  | none => false
  | some n => n != 0

/-- handleCollapseProjects on the active group's snapshot:
firstItems = current.firstPageItems || current.items.slice(0, PROJECTS_PAGE_SIZE)
(an empty stored array is truthy and is kept);
firstNext = current.firstPageNext ?? current.nextPage ?? null;
the snapshot keeps every other field (in particular allItems) and gets
items := firstItems, nextPage := firstNext,
hasMore := Boolean(firstNext) || Boolean(allItems && allItems.length > firstItems.length),
loading := false, error := undefined.  The handler only writes the map (and
the session preference); it issues no fetch, hence the empty request list. -/
def collapseProjects (current : ProjectsSnapshot) : ProjectsSnapshot × List ProjReq :=
  let firstItems :=
    match current.firstPageItems with
    | some l => l
    | none => current.items.take PROJECTS_PAGE_SIZE
  let firstNext :=
    match current.firstPageNext with
    | some n => some n
    | none => current.nextPage
  ({ current with
      items := firstItems
      nextPage := firstNext
      hasMore :=
        jsNumTruthy firstNext ||
          (match current.allItems with
           | some all => decide (firstItems.length < all.length)
           | none => false)
      loading := false
      error := none }, [])

/-- handleLoadMoreProjects on the active group's snapshot: a loading snapshot
is left alone; when cachedAll = allItems exists and is longer than the
displayed list the full cached list is revealed without any fetch
(nextPage := null, hasMore := false); otherwise the handler escalates to
ensureProjects mode "all", which issues the unpaged fetch. -/
def loadMoreProjects (current : ProjectsSnapshot) : ProjectsSnapshot × List ProjReq :=
  if current.loading then (current, [])
  else
    match current.allItems with
    | some all =>
      if current.items.length < all.length then
        ({ current with
            items := all
            loading := false
            error := none
            nextPage := none
            hasMore := false }, [])
      else (current, [ProjReq.fetchAll])
    | none => (current, [ProjReq.fetchAll])

/-! ## Concrete sample states used by the witnesses -/

/-- A loaded level holding three items with a continuation cursor. -/
def sampleLevelWithCursor : GroupListState :=
  { items := [1, 2, 3], cursor := some "c1", total := 5, loading := false,
    error := none, initialLimit := 6, displayCount := 3 }

/-- A plain load-more call (no reset, no explicit limit). -/
def sampleLoadMoreOpts : LoadOptions := { reset := false, initialLimit := none }

/-- A follow-up page carrying two fresh items and an exhausted cursor. -/
def sampleFollowUpPage : GroupPageResponse :=
  { items := [4, 5], next_cursor := none, total := some 5 }

/-- A loaded two-item child level about to be refreshed. -/
def sampleLevelForFailure : GroupListState :=
  { items := [1, 2], cursor := some "c2", total := 9, loading := false,
    error := none, initialLimit := 4, displayCount := 2 }

/-- A well-formed cache record stored at clock value 1000. -/
def sampleCacheRecord : GroupTreeCacheRecord :=
  { tree := [Json.obj [("group", Json.obj [("id", Json.num 1)]), ("children", Json.arr [])]],
    hash := "abc", lastModified := "2026-01-01", lastModifiedHttp := some "Thu",
    storedAt := 1000 }

/-- A twelve-project snapshot with its three-project first page cached. -/
def sampleExpandedSnapshot : ProjectsSnapshot :=
  { items := [1, 2, 3, 4, 5, 6, 7, 8, 9, 10, 11, 12],
    loading := false, error := none, searchKey := "", fetchedAt := 0,
    nextPage := none, hasMore := false,
    firstPageItems := some [1, 2, 3],
    firstPageNext := some 2,
    allItems := some [1, 2, 3, 4, 5, 6, 7, 8, 9, 10, 11, 12] }

/-! ## Theorems -/

/-- Helper: String(x || "") is the identity on a string-valued property. -/
lemma decodeStrOr (s : String) : jsToString (jsOrU (some (.str s)) (.str "")) = s := by
  by_cases h : s = ""
  · subst h; simp [jsOrU, Json.truthy, jsToString]
  · simp [jsOrU, Json.truthy, jsToString, h]

/-- Helper: Number(x || fallback) is the identity on a nonzero numeric property. -/
lemma decodeNumOr (n : Int) (b : Json) (h : ¬n = 0) :
    jsToNumber (jsOrU (some (.num n)) b) = n := by
  simp [jsOrU, Json.truthy, jsToNumber, h]

/-- C4: saving a well-formed cache record and loading it back returns a record
deep-equal to the saved one with stale = false while at most 60 seconds have
elapsed since storedAt, and the same record with stale = true once more than
60 seconds have elapsed. -/
theorem cache_roundtrip_ttl (r : GroupTreeCacheRecord) (now : Int)
    (h : WellFormedCacheRecord r) :
    (now - r.storedAt ≤ GROUP_CACHE_TTL_MS →
      loadGroupTreeCache (saveGroupTreeCache r) now = { record := some r, stale := false })
    ∧ (GROUP_CACHE_TTL_MS < now - r.storedAt →
      loadGroupTreeCache (saveGroupTreeCache r) now = { record := some r, stale := true }) := by
  obtain ⟨h1, h2⟩ := h
  have hload : loadGroupTreeCache (saveGroupTreeCache r) now =
      { record := some r, stale := decide (GROUP_CACHE_TTL_MS < now - r.storedAt) } := by
    rcases r with ⟨tree, hsh, lm, lmh, st⟩
    have hst : ¬st = 0 := by simp only at h1; omega
    cases lmh with
    | none =>
      simp [loadGroupTreeCache, saveGroupTreeCache, encodeCacheRecord, Json.get,
        lookupField, isTreeArray, treeOf, Json.truthy, decodeStrOr, decodeNumOr _ _ hst]
    | some s =>
      have hs : ¬s = "" := by
        intro e
        exact h2 (by simp only at e ⊢; rw [e])
      simp [loadGroupTreeCache, saveGroupTreeCache, encodeCacheRecord, Json.get,
        lookupField, isTreeArray, treeOf, Json.truthy, jsToString, hs,
        decodeStrOr, decodeNumOr _ _ hst]
  constructor
  · intro hle
    rw [hload]
    have hd : decide (GROUP_CACHE_TTL_MS < now - r.storedAt) = false := by
      rw [decide_eq_false_iff_not]
      simp only [GROUP_CACHE_TTL_MS] at hle ⊢
      omega
    rw [hd]
  · intro hlt
    rw [hload]
    have hd : decide (GROUP_CACHE_TTL_MS < now - r.storedAt) = true := by
      rw [decide_eq_true_eq]
      exact hlt
    rw [hd]

/-- C4 witness: the sample record saved at clock 1000 and loaded at clock 2000
(1 second later) comes back intact and fresh. -/
theorem cache_roundtrip_ttl_witness :
    WellFormedCacheRecord sampleCacheRecord
    ∧ loadGroupTreeCache (saveGroupTreeCache sampleCacheRecord) 2000 =
        { record := some sampleCacheRecord, stale := false } := by
  have hw : WellFormedCacheRecord sampleCacheRecord := by
    constructor
    · decide
    · decide
  exact ⟨hw, (cache_roundtrip_ttl sampleCacheRecord 2000 hw).1 (by decide)⟩

/-- C5 counterexample: the payload with key "tree" bound to an empty array and
every other key missing is malformed in the claim's sense (missing keys), yet
loadGroupTreeCache accepts it: it returns a record (with defaulted fields) and
stale = false — not the bare stale-true result of a genuine cache miss. -/
theorem cache_load_missing_keys_not_miss :
    (loadGroupTreeCache (.json (.obj [("tree", .arr [])])) 1000000).stale = false
    ∧ (loadGroupTreeCache (.json (.obj [("tree", .arr [])])) 1000000).record.isSome = true := by
  constructor
  · rfl
  · rfl

/-- C5 amended: loadGroupTreeCache fails soft — it never throws, and it yields
the bare stale-true result exactly for absent storage, unparsable JSON, a
falsy parsed value, or a payload whose tree field is not an array; every other
payload (tree is an array) is accepted as a record, with missing or falsy
scalar fields coerced to defaults rather than treated as a cache miss. -/
theorem cache_load_failsoft (now : Int) (d : Json) :
    loadGroupTreeCache .absent now = { record := none, stale := true }
    ∧ loadGroupTreeCache .garbage now = { record := none, stale := true }
    ∧ (d.truthy = false →
        loadGroupTreeCache (.json d) now = { record := none, stale := true })
    ∧ (isTreeArray d = false →
        loadGroupTreeCache (.json d) now = { record := none, stale := true })
    ∧ (isTreeArray d = true →
        (loadGroupTreeCache (.json d) now).record.isSome = true) := by
  refine ⟨rfl, rfl, ?_, ?_, ?_⟩
  · intro hf
    simp [loadGroupTreeCache, hf]
  · intro hf
    simp [loadGroupTreeCache, hf]
  · intro ht
    have htr : d.truthy = true := by
      cases d <;> simp_all [isTreeArray, Json.get, Json.truthy]
    simp [loadGroupTreeCache, ht, htr]

/-- C5 amended witness: a numeric payload (tree not an array) is a miss, while
the tree-only object payload is accepted with a record. -/
theorem cache_load_failsoft_witness :
    isTreeArray (.num 5) = false
    ∧ loadGroupTreeCache (.json (.num 5)) 0 = { record := none, stale := true }
    ∧ isTreeArray (.obj [("tree", .arr [])]) = true
    ∧ (loadGroupTreeCache (.json (.obj [("tree", .arr [])])) 0).record.isSome = true :=
  ⟨by decide, (cache_load_failsoft 0 (.num 5)).2.2.2.1 (by decide),
   by decide, (cache_load_failsoft 0 (.obj [("tree", .arr [])])).2.2.2.2 (by decide)⟩

/-- C1: the stale-response discard does not work in the code.  Query "a" is
issued (request 0 fires), then query "ab" (request 1 fires) before "a"
resolves; request 1's responses arrive and are applied, then request 0's
responses arrive late.  Because the `() => { active = false }` deactivation
closure is returned to window.setTimeout — which discards its callback's
return value — request 0's active flag is still true, so the superseded
responses pass the `if (!active)` guard and overwrite the newer results: the
displayed group results are request 0's payload [10] (not request 1's [20])
and the displayed project results are request 0's payload [100] (not [200]),
contradicting the claim that a response for a superseded query is never
applied. -/
theorem search_stale_response_is_applied :
    (runSearch [.input "a", .timerFire, .input "ab", .timerFire,
      .groupResponse 1 [20], .projectResponse 1 [200],
      .groupResponse 0 [10], .projectResponse 0 [100]]).searchResults = [10]
    ∧ (runSearch [.input "a", .timerFire, .input "ab", .timerFire,
      .groupResponse 1 [20], .projectResponse 1 [200],
      .groupResponse 0 [10], .projectResponse 0 [100]]).searchProjectResults = [100]
    ∧ activeFlag (runSearch [.input "a", .timerFire, .input "ab", .timerFire,
      .groupResponse 1 [20], .projectResponse 1 [200],
      .groupResponse 0 [10], .projectResponse 0 [100]]) 0 = true := by
  refine ⟨?_, ?_, ?_⟩ <;> decide

/-- C10: a project-search response that the coordinator applies is truncated
to its first 50 items (`projects.slice(0, 50)`) before being displayed: the
displayed list is exactly the 50-item prefix of the server payload, its length
never exceeds 50, and a payload of at most 50 items is displayed whole. -/
theorem project_search_truncated_to_50 (st : SearchState) (id : Nat) (ps : List Nat)
    (h : activeFlag st id = true) :
    (stepSearch (.projectResponse id ps) st).searchProjectResults = ps.take PROJECT_SEARCH_LIMIT
    ∧ (stepSearch (.projectResponse id ps) st).searchProjectResults.length ≤ 50
    ∧ (ps.length ≤ 50 → (stepSearch (.projectResponse id ps) st).searchProjectResults = ps) := by
  refine ⟨by simp [stepSearch, h], ?_, ?_⟩
  · simp only [stepSearch, h, if_true, PROJECT_SEARCH_LIMIT]
    simp [List.length_take]
  · intro hlen
    simp [stepSearch, h, PROJECT_SEARCH_LIMIT, List.take_of_length_le hlen]

/-- C10 witness: a concrete active request whose 60-item response is cut to
the first 50. -/
theorem project_search_truncated_to_50_witness :
    activeFlag ({ initialSearchState with
        inflight := [{ id := 0, query := "q", active := true }] }) 0 = true
    ∧ (stepSearch (.projectResponse 0 (List.range 60))
        ({ initialSearchState with
           inflight := [{ id := 0, query := "q", active := true }] })).searchProjectResults
      = List.range 50 := by
  refine ⟨by decide, ?_⟩
  have h := (project_search_truncated_to_50
    ({ initialSearchState with inflight := [{ id := 0, query := "q", active := true }] })
    0 (List.range 60) (by decide)).1
  rw [h]
  decide

/-- Helper for C6: the rows between floor(S / R) and ceil((S + V) / R) are
exactly the rows that occupy a pixel of the viewport — row i covers the pixel
rows i * R .. (i + 1) * R - 1 and the viewport covers S .. S + V - 1, so the
overlap condition is i * R < S + V and S < (i + 1) * R. -/
lemma visibleRange_iff (R V S : Nat) (hR : 0 < R) (i : Nat) :
    (S / R ≤ i ∧ i < natCeilDiv (S + V) R) ↔ (i * R < S + V ∧ S < (i + 1) * R) := by
  have hmul : (i + 1) * R = i * R + R := by ring
  constructor
  · rintro ⟨hlo, hhi⟩
    simp only [natCeilDiv] at hhi
    have h1 : (i + 1) * R ≤ S + V + R - 1 := (Nat.le_div_iff_mul_le hR).mp hhi
    rw [hmul] at h1
    have h2 : S / R < i + 1 := Nat.lt_succ_of_le hlo
    have h3 : S < (i + 1) * R := (Nat.div_lt_iff_lt_mul hR).mp h2
    exact ⟨by omega, h3⟩
  · rintro ⟨ha, hb⟩
    constructor
    · have h4 : S / R < i + 1 := (Nat.div_lt_iff_lt_mul hR).mpr hb
      omega
    · show i + 1 ≤ natCeilDiv (S + V) R
      simp only [natCeilDiv]
      refine (Nat.le_div_iff_mul_le hR).mpr ?_
      rw [hmul]
      omega

/-- C6: for a list of N items at row height R, viewport height V and scroll
offset S, the computed window is a contiguous range containing every row that
occupies a pixel of the viewport; its bounds are exactly the first and
one-past-last visible row indices widened by overscan rows on each side and
clamped to 0 and N (natural subtraction is the lower clamp); the render emits
a spacer of height start * R above and (N - end) * R below the slice, and the
empty list renders only the empty-state placeholder with no spacers. -/
theorem virtuallist_window_correct (items : List Nat) (R V S ov : Nat) (hR : 0 < R) :
    (∀ i, i < items.length → i * R < S + V → S < (i + 1) * R →
      (computeRange items.length R V S ov).start ≤ i
        ∧ i < (computeRange items.length R V S ov).stop)
    ∧ (∀ i, (S / R ≤ i ∧ i < natCeilDiv (S + V) R) ↔ (i * R < S + V ∧ S < (i + 1) * R))
    ∧ (computeRange items.length R V S ov).start = S / R - ov
    ∧ (computeRange items.length R V S ov).stop
        = min items.length (natCeilDiv (S + V) R + ov)
    ∧ (computeRange items.length R V S ov).stop ≤ items.length
    ∧ (items ≠ [] → renderVirtualList items R V S ov =
        .window ((computeRange items.length R V S ov).start * R)
          ((items.drop (computeRange items.length R V S ov).start).take
            ((computeRange items.length R V S ov).stop
              - (computeRange items.length R V S ov).start))
          ((items.length - (computeRange items.length R V S ov).stop) * R))
    ∧ renderVirtualList [] R V S ov = .empty := by
  refine ⟨?_, visibleRange_iff R V S hR, rfl, rfl, ?_, ?_, rfl⟩
  · intro i hlen hv1 hv2
    obtain ⟨hlo, hhi⟩ := (visibleRange_iff R V S hR i).mpr ⟨hv1, hv2⟩
    simp only [computeRange]
    constructor
    · exact le_trans (Nat.sub_le _ _) hlo
    · exact Nat.lt_min.mpr ⟨hlen, Nat.lt_of_lt_of_le hhi (Nat.le_add_right _ _)⟩
  · simp only [computeRange]
    exact Nat.min_le_left _ _
  · intro hne
    have hlen : ¬items.length = 0 := by simp [hne]
    simp [renderVirtualList, hlen]

/-- C6 witness: ten rows of height 2, viewport height 3, scroll offset 4 and
overscan 1 — row 2 occupies a visible pixel and lies inside the window. -/
theorem virtuallist_window_correct_witness :
    (0 : Nat) < 2
    ∧ (computeRange (List.range 10).length 2 3 4 1).start ≤ 2
    ∧ 2 < (computeRange (List.range 10).length 2 3 4 1).stop := by
  have h := (virtuallist_window_correct (List.range 10) 2 3 4 1 (by decide)).1 2
    (by decide) (by decide) (by decide)
  exact ⟨by decide, h.1, h.2⟩

/-- C2: the merge of a successful page response of loadGroupList.  The call
writes the loading state and then the merged state; a continuation cursor is
sent to the server exactly when the computed cursor is truthy (api.ts guards
`if (params.cursor)`), and in that case the new items are appended after the
previously held items and displayCount advances by the number of freshly
fetched items, capped at the merged length; on reset the level holds exactly
the response items; in every case displayCount never exceeds the item-list
length. -/
theorem load_success_merge (isRoot : Bool) (prev : Option GroupListState)
    (opts : LoadOptions) (resp : GroupPageResponse)
    (hacc : loadAccepted prev opts = true) :
    (loadGroupList isRoot prev opts (.success resp)).1 =
      [loadingState isRoot prev opts, successState isRoot prev opts resp]
    ∧ (∀ p, prev = some p → jsStrTruthy (requestCursor prev opts) = true →
        (successState isRoot prev opts resp).items = p.items ++ resp.items
        ∧ (successState isRoot prev opts resp).displayCount =
            min (p.displayCount + resp.items.length) (p.items ++ resp.items).length)
    ∧ (opts.reset = true → (successState isRoot prev opts resp).items = resp.items)
    ∧ (successState isRoot prev opts resp).displayCount ≤
        (successState isRoot prev opts resp).items.length := by
  refine ⟨by simp [loadGroupList, hacc], ?_, ?_, ?_⟩
  · rintro p rfl hc
    cases hp : p.items with
    | nil => simp [successState, hc, hp]
    | cons a l => simp [successState, hc, hp]
  · intro hr
    simp [successState, requestCursor, hr, jsStrTruthy]
  · cases prev with
    | none => simp [successState]
    | some p =>
      simp only [successState]
      split <;> omega

/-- C2 witness: a level holding [1, 2, 3] with cursor "c1"; the follow-up page
[4, 5] is appended and displayCount advances from 3 to 5. -/
theorem load_success_merge_witness :
    loadAccepted (some sampleLevelWithCursor) sampleLoadMoreOpts = true
    ∧ (successState true (some sampleLevelWithCursor) sampleLoadMoreOpts
        sampleFollowUpPage).items = [1, 2, 3, 4, 5] := by
  refine ⟨by decide, ?_⟩
  have h := ((load_success_merge true (some sampleLevelWithCursor) sampleLoadMoreOpts
    sampleFollowUpPage (by decide)).2.1 _ rfl (by decide)).1
  rw [h]
  decide

/-- C3: a failed page fetch leaves the level's items, cursor and total exactly
as they were before the call, drops the loading flag, records an error
message, and leaves the level in a state every subsequent loadGroupList call
accepts (the guard only skips while loading is true). -/
theorem load_failure_preserves (isRoot : Bool) (p : GroupListState)
    (opts : LoadOptions) (msg : String)
    (hacc : loadAccepted (some p) opts = true) :
    (loadGroupList isRoot (some p) opts (.failure msg)).1 =
      [loadingState isRoot (some p) opts, failureState isRoot (some p) opts msg]
    ∧ (failureState isRoot (some p) opts msg).items = p.items
    ∧ (failureState isRoot (some p) opts msg).cursor = p.cursor
    ∧ (failureState isRoot (some p) opts msg).total = p.total
    ∧ (failureState isRoot (some p) opts msg).loading = false
    ∧ (failureState isRoot (some p) opts msg).error.isSome = true
    ∧ (∀ (opts2 : LoadOptions) (outcome2 : LoadOutcome),
        (loadGroupList isRoot (some (failureState isRoot (some p) opts msg)) opts2 outcome2).2
          = true) := by
  refine ⟨by simp [loadGroupList, hacc], by simp [failureState], by simp [failureState],
    by simp [failureState], by simp [failureState], ?_, ?_⟩
  · by_cases hm : msg = "" <;> simp [failureState, hm]
  · intro opts2 outcome2
    simp [loadGroupList, loadAccepted, failureState]

/-- C3 witness: a populated level whose refresh fails with "boom"; items,
cursor and total survive, the error is set, and a retry is accepted. -/
theorem load_failure_preserves_witness :
    loadAccepted (some sampleLevelForFailure) sampleLoadMoreOpts = true
    ∧ (failureState false (some sampleLevelForFailure) sampleLoadMoreOpts "boom").items
      = [1, 2]
    ∧ (loadGroupList false
        (some (failureState false (some sampleLevelForFailure) sampleLoadMoreOpts "boom"))
        sampleLoadMoreOpts
        (.success { items := [3], next_cursor := none, total := none })).2 = true := by
  have h := load_failure_preserves false sampleLevelForFailure sampleLoadMoreOpts "boom"
    (by decide)
  exact ⟨by decide, h.2.1, h.2.2.2.2.2.2 _ _⟩

/-- C9 helper: the loading-phase state keeps the previous displayCount and
items, so it inherits the invariant. -/
lemma displayInv_loadingState (isRoot : Bool) (prev : Option GroupListState)
    (opts : LoadOptions) (hp : ∀ p, prev = some p → DisplayCountInv p) :
    DisplayCountInv (loadingState isRoot prev opts) := by
  cases prev with
  | none => simp [DisplayCountInv, loadingState]
  | some p => simpa [DisplayCountInv, loadingState] using hp p rfl

/-- C9 helper: the merged state caps displayCount by a min against the item
count in both branches. -/
lemma displayInv_successState (isRoot : Bool) (prev : Option GroupListState)
    (opts : LoadOptions) (resp : GroupPageResponse) :
    DisplayCountInv (successState isRoot prev opts resp) := by
  cases prev with
  | none => simp [DisplayCountInv, successState]
  | some p =>
    simp only [DisplayCountInv, successState]
    split <;> omega

/-- C9 helper: the failure state keeps the previous displayCount and items. -/
lemma displayInv_failureState (isRoot : Bool) (prev : Option GroupListState)
    (opts : LoadOptions) (msg : String) (hp : ∀ p, prev = some p → DisplayCountInv p) :
    DisplayCountInv (failureState isRoot prev opts msg) := by
  cases prev with
  | none => simp [DisplayCountInv, failureState]
  | some p => simpa [DisplayCountInv, failureState] using hp p rfl

/-- C9 helper: the reveal sets displayCount to exactly items.length. -/
lemma displayInv_reveal (s : GroupListState) (h : DisplayCountInv s) :
    DisplayCountInv (applyShowMoreReveal s) := by
  unfold applyShowMoreReveal
  split
  · simp [DisplayCountInv]
  · exact h

/-- C9 helper: the collapse caps displayCount by items.length. -/
lemma displayInv_collapse (s : GroupListState) :
    DisplayCountInv (applyCollapse s) := by
  simp [DisplayCountInv, applyCollapse]

/-- C9 helper: every state an operation writes satisfies the invariant. -/
lemma displayInv_opStates (op : LevelOp) (s : Option GroupListState)
    (hs : ∀ p, s = some p → DisplayCountInv p) :
    ∀ t ∈ opStates op s, DisplayCountInv t := by
  intro t ht
  cases op with
  | load isRoot opts outcome =>
    by_cases hacc : loadAccepted s opts = true
    · simp [opStates, loadGroupList, hacc] at ht
      rcases ht with rfl | rfl
      · exact displayInv_loadingState isRoot s opts hs
      · cases outcome with
        | success resp => exact displayInv_successState isRoot s opts resp
        | failure msg => exact displayInv_failureState isRoot s opts msg hs
    · simp [opStates, loadGroupList, hacc] at ht
  | showMoreReveal =>
    cases s with
    | none => simp [opStates] at ht
    | some p =>
      simp [opStates] at ht
      subst ht
      exact displayInv_reveal p (hs p rfl)
  | collapse =>
    cases s with
    | none => simp [opStates] at ht
    | some p =>
      simp [opStates] at ht
      subst ht
      exact displayInv_collapse p

/-- C9 helper: the state after an operation satisfies the invariant. -/
lemma displayInv_stepOp (op : LevelOp) (s : Option GroupListState)
    (hs : ∀ p, s = some p → DisplayCountInv p) :
    ∀ p, stepOp op s = some p → DisplayCountInv p := by
  intro q hq
  cases op with
  | load isRoot opts outcome =>
    by_cases hacc : loadAccepted s opts = true
    · simp [stepOp, loadGroupList, hacc] at hq
      cases outcome with
      | success resp => exact hq ▸ displayInv_successState isRoot s opts resp
      | failure msg => exact hq ▸ displayInv_failureState isRoot s opts msg hs
    · simp [stepOp, loadGroupList, hacc] at hq
      exact hs q hq
  | showMoreReveal =>
    cases s with
    | none => simp [stepOp] at hq
    | some p =>
      simp [stepOp] at hq
      subst hq
      exact displayInv_reveal p (hs p rfl)
  | collapse =>
    cases s with
    | none => simp [stepOp] at hq
    | some p =>
      simp [stepOp] at hq
      subst hq
      exact displayInv_collapse p

/-- C9: in every reachable level state — across any sequence of page loads
(successful or failed, including their loading phases), show-more reveals and
collapses, starting from any state satisfying it — displayCount never exceeds
items.length. -/
theorem displaycount_never_exceeds_items (ops : List LevelOp)
    (s : Option GroupListState) (hs : ∀ p, s = some p → DisplayCountInv p) :
    ∀ t ∈ traceStates ops s, DisplayCountInv t := by
  induction ops generalizing s with
  | nil => intro t ht; simp [traceStates] at ht
  | cons op rest ih =>
    intro t ht
    simp only [traceStates] at ht
    rcases List.mem_append.mp ht with h | h
    · exact displayInv_opStates op s hs t h
    · exact ih (stepOp op s) (displayInv_stepOp op s hs) t h

/-- C9 witness: a fresh level loaded with two items satisfies the invariant
at the merged state of the trace. -/
theorem displaycount_never_exceeds_items_witness :
    DisplayCountInv (successState true none { reset := true, initialLimit := none }
      { items := [1, 2], next_cursor := none, total := none }) :=
  displaycount_never_exceeds_items
    [LevelOp.load true { reset := true, initialLimit := none }
      (.success { items := [1, 2], next_cursor := none, total := none })]
    none (fun p hp => nomatch hp)
    (successState true none { reset := true, initialLimit := none }
      { items := [1, 2], next_cursor := none, total := none })
    (by decide)

/-- C7: a revalidation tick whose conditional check answers changed: false
leaves the component state completely unchanged — no cached level list and no
branch path is cleared or reloaded — and the only request issued is the single
conditional groups request carrying the stored hash / Last-Modified markers. -/
theorem revalidation_unchanged_is_noop (st : SidebarRevalState) (resp : RevalResponse)
    (hflight : st.inFlight = false)
    (hmeta : (jsStrTruthy st.meta.hash || jsStrTruthy st.meta.lastModifiedHttp) = true)
    (hchanged : resp.changed = false) :
    revalidateTick st resp =
      (st, [FetchReq.conditionalGroups st.meta.hash st.meta.lastModifiedHttp]) := by
  rw [Bool.or_eq_true] at hmeta
  rcases hmeta with hm | hm <;>
    simp [revalidateTick, hflight, hchanged, hm]

/-- C7 witness: a concrete idle state with a stored hash; the unchanged answer
leaves it untouched and issues exactly the conditional request. -/
theorem revalidation_unchanged_is_noop_witness :
    revalidateTick
      { groupLists := [("root",
          { items := [1], cursor := none, total := 1, loading := false,
            error := none, initialLimit := 6, displayCount := 1 })]
        groupPath := [1]
        meta := { hash := some "abc", lastModifiedHttp := none }
        inFlight := false
        selectedGroupId := some 1 }
      { changed := false, hash := some "abc", last_modified_http := none } =
      ({ groupLists := [("root",
           { items := [1], cursor := none, total := 1, loading := false,
             error := none, initialLimit := 6, displayCount := 1 })]
         groupPath := [1]
         meta := { hash := some "abc", lastModifiedHttp := none }
         inFlight := false
         selectedGroupId := some 1 },
       [FetchReq.conditionalGroups (some "abc") none]) :=
  revalidation_unchanged_is_noop _ _ (by decide) (by decide) (by decide)

/-- C8: collapsing a projects snapshot that holds stored first-page data
restores exactly firstPageItems as the displayed items and firstPageNext as
the next-page marker, issues no network request, and keeps the cached allItems
untouched; consequently a later re-expansion (handleLoadMoreProjects) on the
collapsed snapshot is served from the allItems cache without any fetch
whenever that cache holds more than the first page. -/
theorem collapse_restores_first_page (s : ProjectsSnapshot) (fpi : List Nat) (n : Int)
    (h1 : s.firstPageItems = some fpi) (h2 : s.firstPageNext = some n) :
    (collapseProjects s).1.items = fpi
    ∧ (collapseProjects s).1.nextPage = some n
    ∧ (collapseProjects s).1.allItems = s.allItems
    ∧ (collapseProjects s).2 = []
    ∧ (∀ all, s.allItems = some all → fpi.length < all.length →
        loadMoreProjects (collapseProjects s).1 =
          ({ (collapseProjects s).1 with
              items := all, nextPage := none, hasMore := false,
              loading := false, error := none }, [])) := by
  refine ⟨?_, ?_, ?_, ?_, ?_⟩ <;> simp [collapseProjects, h1, h2]
  intro all hall hlen
  simp [loadMoreProjects, collapseProjects, h1, h2, hall, hlen]

/-- C8 witness: a snapshot showing all 12 projects with a 3-project first page
cached; collapse restores the 3 and re-expansion reveals the 12 from cache. -/
theorem collapse_restores_first_page_witness :
    (collapseProjects
      { items := [1, 2, 3, 4, 5, 6, 7, 8, 9, 10, 11, 12]
        loading := false, error := none, searchKey := "", fetchedAt := 0
        nextPage := none, hasMore := false
        firstPageItems := some [1, 2, 3]
        firstPageNext := some 2
        allItems := some [1, 2, 3, 4, 5, 6, 7, 8, 9, 10, 11, 12] }).1.items = [1, 2, 3]
    ∧ (collapseProjects
      { items := [1, 2, 3, 4, 5, 6, 7, 8, 9, 10, 11, 12]
        loading := false, error := none, searchKey := "", fetchedAt := 0
        nextPage := none, hasMore := false
        firstPageItems := some [1, 2, 3]
        firstPageNext := some 2
        allItems := some [1, 2, 3, 4, 5, 6, 7, 8, 9, 10, 11, 12] }).2 = [] := by
  have h := collapse_restores_first_page
    { items := [1, 2, 3, 4, 5, 6, 7, 8, 9, 10, 11, 12]
      loading := false, error := none, searchKey := "", fetchedAt := 0
      nextPage := none, hasMore := false
      firstPageItems := some [1, 2, 3]
      firstPageNext := some 2
      allItems := some [1, 2, 3, 4, 5, 6, 7, 8, 9, 10, 11, 12] }
    [1, 2, 3] 2 rfl rfl
  exact ⟨h.1, h.2.2.2.1⟩

end GCVM
